import Mathlib

/-!
Shallow embedding of `src/pkg/deflate64/deflate64_bridge.c` (haapjari/btidy).

The bridge drives the external DEFLATE64 engine (`inflateBack9`, zlib contrib;
out of scope per the specification) through two hooks, classifying each run's
outcome.  The engine is modelled opaquely: one engine run is an arbitrary
finite sequence of pull/push hook invocations on the bound state, together
with the status code the engine returns and the final value it leaves in
`stream.avail_in`.  Everything the bridge itself does — the hooks, the
per-call binding, the outcome classification, init/free and the error
resolver — is translated directly from the C source.

Machine integers: `size_t` values are natural numbers; the one place the C
source subtracts `size_t` values where wraparound is conceivable is modelled
with explicit arithmetic modulo 2^64 (`sizeSub`).  `unsigned` is capped by
`UINT_MAX`.  Byte buffers are `List Nat`.
-/

/-- Status code `Z_OK` from zlib.h. -/
def Z_OK : Int := 0

/-- Status code `Z_STREAM_END` from zlib.h. -/
def Z_STREAM_END : Int := 1

/-- Status code `Z_STREAM_ERROR` from zlib.h. -/
def Z_STREAM_ERROR : Int := -2

/-- Status code `Z_DATA_ERROR` from zlib.h. -/
def Z_DATA_ERROR : Int := -3

/-- Status code `Z_MEM_ERROR` from zlib.h. -/
def Z_MEM_ERROR : Int := -4

/-- Status code `Z_BUF_ERROR` from zlib.h. -/
def Z_BUF_ERROR : Int := -5

/-- Value of `UINT_MAX` (32-bit `unsigned`). -/
def UINT_MAX : Nat := 4294967295

/-- Modulus of `size_t` arithmetic (64-bit). -/
def SIZE_MOD : Nat := 18446744073709551616

/-- C `size_t` subtraction `a - b`, i.e. subtraction modulo 2^64 (for `a`
already reduced, `a < SIZE_MOD`). -/
def sizeSub (a b : Nat) : Nat :=
  (a + SIZE_MOD - b % SIZE_MOD) % SIZE_MOD

theorem sizeSub_eq_sub (a b : Nat) (hba : b ≤ a) (ha : a < SIZE_MOD) :
    sizeSub a b = a - b := by
  unfold sizeSub
  have hb : b % SIZE_MOD = b := Nat.mod_eq_of_lt (Nat.lt_of_le_of_lt hba ha)
  rw [hb]
  have h1 : a + SIZE_MOD - b = (a - b) + SIZE_MOD := by omega
  rw [h1, Nat.add_mod_right]
  exact Nat.mod_eq_of_lt (by omega)

/-- Behaviour of `memcpy(dst + pos, src, n)` on a buffer modelled as a list:
the result is `dst` with `n` bytes of `src` written at offset `pos`. -/
def memcpyAt (dst : List Nat) (pos : Nat) (src : List Nat) (n : Nat) : List Nat :=
  dst.take pos ++ src.take n ++ dst.drop (pos + n)

theorem memcpyAt_zero (dst : List Nat) (pos : Nat) (src : List Nat) :
    memcpyAt dst pos src 0 = dst := by
  simp [memcpyAt]

theorem memcpyAt_length (dst : List Nat) (pos : Nat) (src : List Nat) (n : Nat)
    (hn : n ≤ src.length) (hpos : pos + n ≤ dst.length) :
    (memcpyAt dst pos src n).length = dst.length := by
  simp only [memcpyAt, List.length_append, List.length_take, List.length_drop]
  omega

theorem memcpyAt_getElem_copied (dst : List Nat) (pos : Nat) (src : List Nat) (n : Nat)
    (hn : n ≤ src.length) (hpos : pos ≤ dst.length) (i : Nat) (hi : i < n) :
    (memcpyAt dst pos src n)[pos + i]? = src[i]? := by
  unfold memcpyAt
  rw [List.getElem?_append_left (by simp only [List.length_append, List.length_take]; omega)]
  rw [List.getElem?_append_right (by simp only [List.length_append, List.length_take]; omega)]
  have h1 : pos + i - (dst.take pos).length = i := by
    simp only [List.length_append, List.length_take]; omega
  rw [h1, List.getElem?_take_of_lt hi]

theorem memcpyAt_getElem_before (dst : List Nat) (pos : Nat) (src : List Nat) (n : Nat)
    (hpos : pos ≤ dst.length) (i : Nat) (hi : i < pos) :
    (memcpyAt dst pos src n)[i]? = dst[i]? := by
  unfold memcpyAt
  rw [List.getElem?_append_left (by simp only [List.length_append, List.length_take]; omega)]
  rw [List.getElem?_append_left (by simp only [List.length_append, List.length_take]; omega)]
  rw [List.getElem?_take_of_lt hi]

theorem memcpyAt_getElem_after (dst : List Nat) (pos : Nat) (src : List Nat) (n : Nat)
    (hn : n ≤ src.length) (hpos : pos + n ≤ dst.length) (i : Nat) (hi : pos + n ≤ i) :
    (memcpyAt dst pos src n)[i]? = dst[i]? := by
  unfold memcpyAt
  rw [List.getElem?_append_right (by simp only [List.length_append, List.length_take]; omega)]
  rw [List.getElem?_drop]
  have h1 : pos + n + (i - (dst.take pos ++ src.take n).length) = i := by
    simp only [List.length_append, List.length_take]; omega
  rw [h1]

/-- The bridge's decoder handle, `struct btidy_deflate64_state`.  The opaque
`z_stream` contributes the one field the bridge reads (`stream.msg`, the
engine diagnostic text, `none` for `Z_NULL`); `window` is the sliding-window
allocation (`none` for the NULL pointer, otherwise its byte size);
the remaining fields are the per-call transient fields of the C struct.
The `initialized` flag doubles as validity of the engine context, which the
C code keeps in `stream.state`: both are established exactly by a successful
`inflateBack9Init`. -/
structure btidy_deflate64_state where
  msg : Option String
  window : Option Nat
  input : List Nat
  input_len : Nat
  input_offset : Nat
  output : List Nat
  output_len : Nat
  output_offset : Nat
  output_overflow : Bool
  initialized : Bool
deriving Repr, DecidableEq

/-- Function `btidy_deflate64_new`: `calloc` produces the all-zero handle. -/
def btidy_deflate64_new : btidy_deflate64_state :=
  { msg := none
    window := none
    input := []
    input_len := 0
    input_offset := 0
    output := []
    output_len := 0
    output_offset := 0
    output_overflow := false
    initialized := false }

/-- Pull hook `btidy_infback9_in`: returns the updated state, the slice
handed to the engine (`none` for `*buf = Z_NULL`) and the byte count
returned to the engine. -/
def btidy_infback9_in (state : btidy_deflate64_state) :
    btidy_deflate64_state × Option (List Nat) × Nat :=
  if state.input_offset ≥ state.input_len then
    (state, none, 0)
  else
    let remaining0 := sizeSub state.input_len state.input_offset
    let remaining := if remaining0 > UINT_MAX then UINT_MAX else remaining0
    ({ state with input_offset := state.input_offset + remaining },
      some ((state.input.drop state.input_offset).take remaining),
      remaining)

/-- Push hook `btidy_infback9_out`: the engine offers `len` valid bytes at
`buf`; returns the updated state and the hook's return value as a Bool
(`true` for the non-zero stop indicator). -/
def btidy_infback9_out (state : btidy_deflate64_state) (buf : List Nat)
    (len : Nat) : btidy_deflate64_state × Bool :=
  let remaining := sizeSub state.output_len state.output_offset
  let to_copy := if len > remaining then remaining else len
  let state1 :=
    { state with
        output := memcpyAt state.output state.output_offset buf to_copy
        output_offset := state.output_offset + to_copy }
  if to_copy < len then
    ({ state1 with output_overflow := true }, true)
  else
    (state1, false)

/-- One hook invocation the engine performs during `inflateBack9`: either a
pull (`in` hook) or a push (`out` hook) offering the given bytes. -/
inductive EngineEvent where
  | pull : EngineEvent
  | push : List Nat → EngineEvent
deriving Repr, DecidableEq

/-- Effect of one engine hook invocation on the bridge state. -/
def applyEvent (s : btidy_deflate64_state) : EngineEvent → btidy_deflate64_state
  | EngineEvent.pull => (btidy_infback9_in s).1
  | EngineEvent.push buf => (btidy_infback9_out s buf buf.length).1

/-- State after the engine has performed a sequence of hook invocations. -/
def runEvents (s : btidy_deflate64_state) (es : List EngineEvent) :
    btidy_deflate64_state :=
  es.foldl applyEvent s

/-- Observable behaviour of one `inflateBack9` run of the opaque external
engine: the hook invocations it performs, the status code it returns, and
the value it leaves in `stream.avail_in` on return. -/
structure EngineRun where
  events : List EngineEvent
  ret : Int
  avail_in_final : Nat
deriving Repr, DecidableEq

/-- Modelled from the spec: the engine call `inflateBack9` itself.  With a
bound engine context it behaves as the opaque run `er` describes.  The
engine context is valid only while `initialized` is true (spec §3); a
never-initialized handle has a NULL `stream.state`, which the engine
rejects up front with the invalid-state status, touching neither the hooks
nor `avail_in` (spec §8: inflate on an uninitialized handle reports
`InvalidState`). -/
def runEngine (s : btidy_deflate64_state) (availIn0 : Nat) (er : EngineRun) :
    btidy_deflate64_state × Int × Nat :=
  if s.initialized then (runEvents s er.events, er.ret, er.avail_in_final)
  else (s, Z_STREAM_ERROR, availIn0)

/-- Binding of the per-call transient fields at the top of
`btidy_deflate64_inflate` (source lines 157-164). -/
def bindCall (st : btidy_deflate64_state) (input : List Nat) (input_len : Nat)
    (output : List Nat) (output_len : Nat) : btidy_deflate64_state :=
  { st with
      input := input
      input_len := input_len
      input_offset := 0
      output := output
      output_len := output_len
      output_offset := 0
      output_overflow := false }

/-- Nullness of each required out-parameter pointer of
`btidy_deflate64_inflate`. -/
structure OutParams where
  input_used_null : Bool
  output_used_null : Bool
  needs_input_null : Bool
  needs_output_null : Bool
  finished_null : Bool
deriving Repr, DecidableEq

/-- The five out-parameter cells of `btidy_deflate64_inflate` as written at
return. -/
structure InflateOut where
  input_used : Nat
  output_used : Nat
  needs_input : Bool
  needs_output : Bool
  finished : Bool
deriving Repr, DecidableEq

/-- Driver `btidy_deflate64_inflate`.  The handle is `none` for a NULL
pointer; `er` is the opaque engine run the enclosed `inflateBack9` call
performs.  Returns the C return value, paired with `none` when the null
checks fail (out-parameters never written) or with the final handle state
and out-parameter values. -/
def btidy_deflate64_inflate (state? : Option btidy_deflate64_state)
    (outp : OutParams) (input : List Nat) (input_len : Nat) (input_eof : Bool)
    (output : List Nat) (output_len : Nat) (er : EngineRun) :
    Int × Option (btidy_deflate64_state × InflateOut) :=
  match state? with
  | none => (Z_STREAM_ERROR, none)
  | some st =>
    if outp.input_used_null || outp.output_used_null || outp.needs_input_null
        || outp.needs_output_null || outp.finished_null then
      (Z_STREAM_ERROR, none)
    else
      let s1 := bindCall st input input_len output output_len
      let availIn0 := if input_len > UINT_MAX then UINT_MAX else input_len
      let rr := runEngine s1 availIn0 er
      let s2 := rr.1
      let ret := rr.2.1
      let iu := sizeSub input_len rr.2.2
      let ou := s2.output_offset
      if ret = Z_STREAM_END then
        (Z_OK, some (s2, ⟨iu, ou, false, false, true⟩))
      else if ret = Z_BUF_ERROR then
        if s2.output_overflow then
          (Z_OK, some (s2, ⟨iu, ou, false, true, false⟩))
        else if iu = input_len then
          if input_eof then
            (Z_DATA_ERROR, some (s2, ⟨iu, ou, true, false, false⟩))
          else
            (Z_OK, some (s2, ⟨iu, ou, true, false, false⟩))
        else
          (ret, some (s2, ⟨iu, ou, false, false, false⟩))
      else
        (ret, some (s2, ⟨iu, ou, false, false, false⟩))

/-- Function `btidy_deflate64_init`.  Allocation outcomes of the two calls
that can fail are parameters: `windowAllocOk` is whether `malloc(65536)`
succeeds, and `engineBindRet` is the status `inflateBack9Init` returns
(the engine is external; on non-`Z_OK` it has not bound the context).
Returns the C return value and (for a non-NULL handle) the updated
handle. -/
def btidy_deflate64_init (state? : Option btidy_deflate64_state)
    (windowAllocOk : Bool) (engineBindRet : Int) :
    Int × Option btidy_deflate64_state :=
  match state? with
  | none => (Z_STREAM_ERROR, none)
  | some st =>
    if windowAllocOk = false then
      (Z_MEM_ERROR, some { st with window := none })
    else
      let st1 := { st with window := some 65536 }
      if engineBindRet ≠ Z_OK then
        (engineBindRet, some { st1 with window := none })
      else
        (Z_OK, some { st1 with initialized := true })

/-- Function `btidy_deflate64_error_message`.  The C test
`state != NULL && state->stream.msg != Z_NULL` is the `Option.bind`. -/
def btidy_deflate64_error_message (state? : Option btidy_deflate64_state)
    (code : Int) : String :=
  match state?.bind (fun st => st.msg) with
  | some m => m
  | none =>
    if code = Z_DATA_ERROR then "invalid deflate64 stream"
    else if code = Z_MEM_ERROR then "insufficient memory"
    else if code = Z_STREAM_ERROR then "invalid stream state"
    else if code = Z_BUF_ERROR then "insufficient input or output buffer"
    else "unknown deflate64 error"

theorem btidy_infback9_out_eq (s : btidy_deflate64_state) (buf : List Nat)
    (len : Nat) (hco : s.output_offset ≤ s.output_len)
    (hLm : s.output_len < SIZE_MOD) :
    btidy_infback9_out s buf len =
      ({ s with
          output := memcpyAt s.output s.output_offset buf
            (min len (s.output_len - s.output_offset))
          output_offset :=
            s.output_offset + min len (s.output_len - s.output_offset)
          output_overflow := s.output_overflow
            || decide (min len (s.output_len - s.output_offset) < len) },
        decide (min len (s.output_len - s.output_offset) < len)) := by
  have hrem : sizeSub s.output_len s.output_offset
      = s.output_len - s.output_offset := sizeSub_eq_sub _ _ hco hLm
  simp only [btidy_infback9_out, hrem]
  by_cases h : len > s.output_len - s.output_offset
  · have hmin : min len (s.output_len - s.output_offset)
        = s.output_len - s.output_offset := by omega
    have hlt : s.output_len - s.output_offset < len := h
    simp [h, hmin, hlt]
  · have hmin : min len (s.output_len - s.output_offset) = len := by omega
    simp [h, hmin]

/-- Claim C4: for every invocation of the push hook offering `len` bytes with
output cursor `c` and output length `L` (`c ≤ L`), the hook copies exactly
`min(len, L − c)` bytes into the output buffer at offset `c` (buffer contents
outside that range unchanged, length preserved), advances the cursor to
`c + min(len, L − c)`, and returns the non-zero stop indicator and sets the
sticky per-call overflow flag exactly when `min(len, L − c) < len`; the bytes
that fit are present in the buffer it leaves behind when it signals stop. -/
theorem out_hook_copies_and_signals (s : btidy_deflate64_state) (buf : List Nat)
    (len : Nat) (hco : s.output_offset ≤ s.output_len)
    (hLm : s.output_len < SIZE_MOD) (hbuf : len ≤ buf.length)
    (hout : s.output.length = s.output_len) :
    (btidy_infback9_out s buf len).1.output_offset
        = s.output_offset + min len (s.output_len - s.output_offset) ∧
    (∀ i, i < min len (s.output_len - s.output_offset) →
      (btidy_infback9_out s buf len).1.output[s.output_offset + i]? = buf[i]?) ∧
    (∀ i, i < s.output_offset →
      (btidy_infback9_out s buf len).1.output[i]? = s.output[i]?) ∧
    (∀ i, s.output_offset + min len (s.output_len - s.output_offset) ≤ i →
      (btidy_infback9_out s buf len).1.output[i]? = s.output[i]?) ∧
    (btidy_infback9_out s buf len).1.output.length = s.output.length ∧
    ((btidy_infback9_out s buf len).2 = true
        ↔ min len (s.output_len - s.output_offset) < len) ∧
    (btidy_infback9_out s buf len).1.output_overflow
        = (s.output_overflow
            || decide (min len (s.output_len - s.output_offset) < len)) := by
  rw [btidy_infback9_out_eq s buf len hco hLm]
  have htlen : min len (s.output_len - s.output_offset) ≤ buf.length :=
    le_trans (min_le_left _ _) hbuf
  have htpos : s.output_offset + min len (s.output_len - s.output_offset)
      ≤ s.output.length := by
    rw [hout]; omega
  refine ⟨rfl, ?_, ?_, ?_, ?_, ?_, rfl⟩
  · intro i hi
    exact memcpyAt_getElem_copied _ _ _ _ htlen (by omega) i hi
  · intro i hi
    exact memcpyAt_getElem_before _ _ _ _ (by omega) i hi
  · intro i hi
    exact memcpyAt_getElem_after _ _ _ _ htlen htpos i hi
  · exact memcpyAt_length _ _ _ _ htlen htpos
  · simp

/-- Witness for C4 at a concrete call: cursor 1 in a 3-byte output buffer,
hook offered 3 bytes, so 2 are copied and the stop indicator fires. -/
theorem out_hook_copies_and_signals_witness :
    ((btidy_infback9_out ⟨none, none, [], 0, 0, [0, 0, 0], 3, 1, false, true⟩
        [7, 8, 9] 3).1.output_offset = 1 + min 3 (3 - 1) ∧
    (∀ i, i < min 3 (3 - 1) →
      (btidy_infback9_out ⟨none, none, [], 0, 0, [0, 0, 0], 3, 1, false, true⟩
        [7, 8, 9] 3).1.output[1 + i]? = [7, 8, 9][i]?) ∧
    (∀ i, i < 1 →
      (btidy_infback9_out ⟨none, none, [], 0, 0, [0, 0, 0], 3, 1, false, true⟩
        [7, 8, 9] 3).1.output[i]? = [0, 0, 0][i]?) ∧
    (∀ i, 1 + min 3 (3 - 1) ≤ i →
      (btidy_infback9_out ⟨none, none, [], 0, 0, [0, 0, 0], 3, 1, false, true⟩
        [7, 8, 9] 3).1.output[i]? = [0, 0, 0][i]?) ∧
    (btidy_infback9_out ⟨none, none, [], 0, 0, [0, 0, 0], 3, 1, false, true⟩
        [7, 8, 9] 3).1.output.length = [0, 0, 0].length ∧
    ((btidy_infback9_out ⟨none, none, [], 0, 0, [0, 0, 0], 3, 1, false, true⟩
        [7, 8, 9] 3).2 = true ↔ min 3 (3 - 1) < 3) ∧
    (btidy_infback9_out ⟨none, none, [], 0, 0, [0, 0, 0], 3, 1, false, true⟩
        [7, 8, 9] 3).1.output_overflow = (false || decide (min 3 (3 - 1) < 3))) :=
  out_hook_copies_and_signals ⟨none, none, [], 0, 0, [0, 0, 0], 3, 1, false, true⟩
    [7, 8, 9] 3 (by decide) (by decide) (by decide) (by decide)

/-- Claim C5: for every invocation of the pull hook with input cursor `c` and
input length `L`: if `c ≥ L` it returns the null slice with count 0 and
leaves the state (in particular the cursor) unchanged; otherwise it returns
the slice of the caller's input starting at offset `c` of length
`min(L − c, UINT_MAX)` (exactly that many bytes when the bound buffer has
length `L`), advances the cursor by that count, and the bytes handed out
stay within the caller-supplied boundary: `c + min(L − c, UINT_MAX) ≤ L`. -/
theorem in_hook_slice_bounds (s : btidy_deflate64_state)
    (hLm : s.input_len < SIZE_MOD) :
    (s.input_len ≤ s.input_offset → btidy_infback9_in s = (s, none, 0)) ∧
    (s.input_offset < s.input_len →
      btidy_infback9_in s =
        ({ s with input_offset :=
            s.input_offset + min (s.input_len - s.input_offset) UINT_MAX },
          some ((s.input.drop s.input_offset).take
            (min (s.input_len - s.input_offset) UINT_MAX)),
          min (s.input_len - s.input_offset) UINT_MAX) ∧
      s.input_offset + min (s.input_len - s.input_offset) UINT_MAX
        ≤ s.input_len ∧
      (s.input.length = s.input_len →
        ((s.input.drop s.input_offset).take
            (min (s.input_len - s.input_offset) UINT_MAX)).length
          = min (s.input_len - s.input_offset) UINT_MAX)) := by
  constructor
  · intro h
    unfold btidy_infback9_in
    rw [if_pos (by omega)]
  · intro h
    have hrem : sizeSub s.input_len s.input_offset
        = s.input_len - s.input_offset := sizeSub_eq_sub _ _ (le_of_lt h) hLm
    have hmin : (if sizeSub s.input_len s.input_offset > UINT_MAX then UINT_MAX
        else sizeSub s.input_len s.input_offset)
        = min (s.input_len - s.input_offset) UINT_MAX := by
      rw [hrem]; split <;> omega
    refine ⟨?_, by omega, ?_⟩
    · unfold btidy_infback9_in
      rw [if_neg (by omega)]
      simp only [hmin]
    · intro hin
      simp only [List.length_take, List.length_drop, hin]
      omega

/-- Witness for C5 at a concrete call: cursor 1 in a 3-byte input. -/
theorem in_hook_slice_bounds_witness :
    (((3 : Nat) ≤ 1 →
      btidy_infback9_in ⟨none, none, [5, 6, 7], 3, 1, [], 0, 0, false, true⟩
        = (⟨none, none, [5, 6, 7], 3, 1, [], 0, 0, false, true⟩, none, 0)) ∧
    ((1 : Nat) < 3 →
      btidy_infback9_in ⟨none, none, [5, 6, 7], 3, 1, [], 0, 0, false, true⟩
        = (⟨none, none, [5, 6, 7], 3, 1 + min (3 - 1) UINT_MAX, [], 0, 0,
            false, true⟩,
          some (([5, 6, 7].drop 1).take (min (3 - 1) UINT_MAX)),
          min (3 - 1) UINT_MAX) ∧
      1 + min (3 - 1) UINT_MAX ≤ 3 ∧
      ([5, 6, 7].length = 3 →
        (([5, 6, 7].drop 1).take (min (3 - 1) UINT_MAX)).length
          = min (3 - 1) UINT_MAX))) :=
  in_hook_slice_bounds ⟨none, none, [5, 6, 7], 3, 1, [], 0, 0, false, true⟩
    (by decide)

theorem in_hook_output_fields (s : btidy_deflate64_state) :
    (btidy_infback9_in s).1.output_offset = s.output_offset ∧
    (btidy_infback9_in s).1.output_len = s.output_len := by
  unfold btidy_infback9_in
  split <;> exact ⟨rfl, rfl⟩

theorem applyEvent_output_inv (s : btidy_deflate64_state) (e : EngineEvent)
    (h0 : s.output_offset ≤ s.output_len) (hLm : s.output_len < SIZE_MOD) :
    (applyEvent s e).output_offset ≤ (applyEvent s e).output_len ∧
    (applyEvent s e).output_len = s.output_len := by
  cases e with
  | pull =>
      obtain ⟨ha, hb⟩ := in_hook_output_fields s
      simp only [applyEvent]
      rw [ha, hb]
      exact ⟨h0, rfl⟩
  | push buf =>
      have he := btidy_infback9_out_eq s buf buf.length h0 hLm
      simp only [applyEvent, he]
      exact ⟨by omega, trivial⟩

theorem runEvents_output_inv (es : List EngineEvent) (s : btidy_deflate64_state)
    (h0 : s.output_offset ≤ s.output_len) (hLm : s.output_len < SIZE_MOD) :
    (runEvents s es).output_offset ≤ (runEvents s es).output_len ∧
    (runEvents s es).output_len = s.output_len := by
  induction es generalizing s with
  | nil => exact ⟨h0, rfl⟩
  | cons e es ih =>
      obtain ⟨ha, hb⟩ := applyEvent_output_inv s e h0 hLm
      obtain ⟨hc, hd⟩ := ih (applyEvent s e) ha (by rw [hb]; exact hLm)
      simp only [runEvents, List.foldl_cons] at *
      exact ⟨hc, hd.trans hb⟩

theorem bindCall_initialized_eq (st : btidy_deflate64_state) (input : List Nat)
    (input_len : Nat) (output : List Nat) (output_len : Nat) :
    (bindCall st input input_len output output_len).initialized
      = st.initialized := rfl

theorem bindCall_output_offset_eq (st : btidy_deflate64_state)
    (input : List Nat) (input_len : Nat) (output : List Nat)
    (output_len : Nat) :
    (bindCall st input input_len output output_len).output_offset = 0 := rfl

theorem bindCall_output_len_eq (st : btidy_deflate64_state) (input : List Nat)
    (input_len : Nat) (output : List Nat) (output_len : Nat) :
    (bindCall st input input_len output output_len).output_len
      = output_len := rfl

theorem inflate_core_init (st : btidy_deflate64_state) (outp : OutParams)
    (input : List Nat) (input_len : Nat) (input_eof : Bool)
    (output : List Nat) (output_len : Nat) (er : EngineRun)
    (h1 : outp.input_used_null = false) (h2 : outp.output_used_null = false)
    (h3 : outp.needs_input_null = false) (h4 : outp.needs_output_null = false)
    (h5 : outp.finished_null = false) (hinit : st.initialized = true) :
    ∀ code s2 r,
      btidy_deflate64_inflate (some st) outp input input_len input_eof output
          output_len er = (code, some (s2, r)) →
      s2 = runEvents (bindCall st input input_len output output_len)
            er.events ∧
      r.input_used = sizeSub input_len er.avail_in_final ∧
      r.output_used = s2.output_offset := by
  intro code s2 r h
  have hbi : (bindCall st input input_len output output_len).initialized
      = true := hinit
  simp only [btidy_deflate64_inflate, h1, h2, h3, h4, h5, Bool.or_self,
    Bool.false_eq_true, if_false, runEngine, hbi, if_true] at h
  split at h
  · simp only [Prod.mk.injEq, Option.some.injEq] at h
    obtain ⟨hcode, hs2, hr⟩ := h
    subst hs2; subst hr
    exact ⟨rfl, rfl, rfl⟩
  · split at h
    · split at h
      · simp only [Prod.mk.injEq, Option.some.injEq] at h
        obtain ⟨hcode, hs2, hr⟩ := h
        subst hs2; subst hr
        exact ⟨rfl, rfl, rfl⟩
      · split at h
        · split at h
          · simp only [Prod.mk.injEq, Option.some.injEq] at h
            obtain ⟨hcode, hs2, hr⟩ := h
            subst hs2; subst hr
            exact ⟨rfl, rfl, rfl⟩
          · simp only [Prod.mk.injEq, Option.some.injEq] at h
            obtain ⟨hcode, hs2, hr⟩ := h
            subst hs2; subst hr
            exact ⟨rfl, rfl, rfl⟩
        · simp only [Prod.mk.injEq, Option.some.injEq] at h
          obtain ⟨hcode, hs2, hr⟩ := h
          subst hs2; subst hr
          exact ⟨rfl, rfl, rfl⟩
    · simp only [Prod.mk.injEq, Option.some.injEq] at h
      obtain ⟨hcode, hs2, hr⟩ := h
      subst hs2; subst hr
      exact ⟨rfl, rfl, rfl⟩

theorem inflate_core_uninit (st : btidy_deflate64_state) (outp : OutParams)
    (input : List Nat) (input_len : Nat) (input_eof : Bool)
    (output : List Nat) (output_len : Nat) (er : EngineRun)
    (h1 : outp.input_used_null = false) (h2 : outp.output_used_null = false)
    (h3 : outp.needs_input_null = false) (h4 : outp.needs_output_null = false)
    (h5 : outp.finished_null = false) (hninit : st.initialized = false) :
    btidy_deflate64_inflate (some st) outp input input_len input_eof output
        output_len er
      = (Z_STREAM_ERROR,
          some (bindCall st input input_len output output_len,
            ⟨sizeSub input_len
                (if input_len > UINT_MAX then UINT_MAX else input_len),
              0, false, false, false⟩)) := by
  have hbi : (bindCall st input input_len output output_len).initialized
      = false := hninit
  have hne1 : ¬ (Z_STREAM_ERROR = Z_STREAM_END) := by
    simp [Z_STREAM_ERROR, Z_STREAM_END]
  have hne2 : ¬ (Z_STREAM_ERROR = Z_BUF_ERROR) := by
    simp [Z_STREAM_ERROR, Z_BUF_ERROR]
  simp only [btidy_deflate64_inflate, h1, h2, h3, h4, h5, Bool.or_self,
    Bool.false_eq_true, if_false, runEngine, hbi, if_true, hne1, hne2,
    bindCall_output_offset_eq]

/-- Claim C1: whenever the engine run of `btidy_deflate64_inflate` stops with
`Z_BUF_ERROR` and the per-call output-overflow flag is set — with no
assumption on how much input was consumed, so in particular also when all
supplied input was consumed in the same run — the call returns `Z_OK` with
`needs_output = true` and `needs_input = false`. -/
theorem inflate_overflow_priority (st : btidy_deflate64_state)
    (outp : OutParams) (input : List Nat) (input_len : Nat) (input_eof : Bool)
    (output : List Nat) (output_len : Nat) (er : EngineRun)
    (h1 : outp.input_used_null = false) (h2 : outp.output_used_null = false)
    (h3 : outp.needs_input_null = false) (h4 : outp.needs_output_null = false)
    (h5 : outp.finished_null = false) (hinit : st.initialized = true)
    (hret : er.ret = Z_BUF_ERROR)
    (hovf : (runEvents (bindCall st input input_len output output_len)
        er.events).output_overflow = true) :
    (btidy_deflate64_inflate (some st) outp input input_len input_eof output
        output_len er).1 = Z_OK ∧
    (btidy_deflate64_inflate (some st) outp input input_len input_eof output
        output_len er).2.map
        (fun p => (p.2.needs_output, p.2.needs_input)) = some (true, false) := by
  have hbi : (bindCall st input input_len output output_len).initialized
      = true := hinit
  have hne1 : ¬ (Z_BUF_ERROR = Z_STREAM_END) := by
    simp [Z_BUF_ERROR, Z_STREAM_END]
  simp only [btidy_deflate64_inflate, h1, h2, h3, h4, h5, Bool.or_self,
    Bool.false_eq_true, if_false, runEngine, hbi, if_true, hret, hne1, hovf,
    Option.map_some, Prod.fst, Prod.snd]
  exact ⟨trivial, rfl⟩

/-- Witness for C1: one push event overflows the 1-byte output buffer while
the single input byte is fully consumed, and the call still reports
needs-output. -/
theorem inflate_overflow_priority_witness :
    (btidy_deflate64_inflate
        (some ⟨none, some 65536, [], 0, 0, [], 0, 0, false, true⟩)
        ⟨false, false, false, false, false⟩ [1] 1 false [0] 1
        ⟨[EngineEvent.push [9, 8]], Z_BUF_ERROR, 0⟩).1 = Z_OK ∧
    (btidy_deflate64_inflate
        (some ⟨none, some 65536, [], 0, 0, [], 0, 0, false, true⟩)
        ⟨false, false, false, false, false⟩ [1] 1 false [0] 1
        ⟨[EngineEvent.push [9, 8]], Z_BUF_ERROR, 0⟩).2.map
        (fun p => (p.2.needs_output, p.2.needs_input)) = some (true, false) :=
  inflate_overflow_priority ⟨none, some 65536, [], 0, 0, [], 0, 0, false, true⟩
    ⟨false, false, false, false, false⟩ [1] 1 false [0] 1
    ⟨[EngineEvent.push [9, 8]], Z_BUF_ERROR, 0⟩
    rfl rfl rfl rfl rfl rfl rfl (by decide)

/-- Claim C2: when the engine run stops with `Z_BUF_ERROR`, no output
overflow occurred and all supplied input was consumed (the unconsumed
remainder is 0), the call returns `Z_DATA_ERROR` when `input_eof` is
asserted and otherwise returns `Z_OK` with `needs_input = true`. -/
theorem inflate_truncation_promotion (st : btidy_deflate64_state)
    (outp : OutParams) (input : List Nat) (input_len : Nat) (input_eof : Bool)
    (output : List Nat) (output_len : Nat) (er : EngineRun)
    (h1 : outp.input_used_null = false) (h2 : outp.output_used_null = false)
    (h3 : outp.needs_input_null = false) (h4 : outp.needs_output_null = false)
    (h5 : outp.finished_null = false) (hinit : st.initialized = true)
    (hret : er.ret = Z_BUF_ERROR)
    (hovf : (runEvents (bindCall st input input_len output output_len)
        er.events).output_overflow = false)
    (havail : er.avail_in_final = 0) (hIm : input_len < SIZE_MOD) :
    (input_eof = true →
      (btidy_deflate64_inflate (some st) outp input input_len input_eof output
          output_len er).1 = Z_DATA_ERROR) ∧
    (input_eof = false →
      (btidy_deflate64_inflate (some st) outp input input_len input_eof output
          output_len er).1 = Z_OK ∧
      (btidy_deflate64_inflate (some st) outp input input_len input_eof output
          output_len er).2.map (fun p => p.2.needs_input) = some true) := by
  have hbi : (bindCall st input input_len output output_len).initialized
      = true := hinit
  have hne1 : ¬ (Z_BUF_ERROR = Z_STREAM_END) := by
    simp [Z_BUF_ERROR, Z_STREAM_END]
  have hiu : sizeSub input_len er.avail_in_final = input_len := by
    rw [havail, sizeSub_eq_sub input_len 0 (Nat.zero_le _) hIm]
    omega
  constructor
  · intro he
    simp only [btidy_deflate64_inflate, h1, h2, h3, h4, h5, Bool.or_self,
      Bool.false_eq_true, if_false, runEngine, hbi, if_true, hret, hne1,
      hovf, hiu, he]
  · intro he
    simp only [btidy_deflate64_inflate, h1, h2, h3, h4, h5, Bool.or_self,
      Bool.false_eq_true, if_false, runEngine, hbi, if_true, hret, hne1,
      hovf, hiu, he, Option.map_some]
    exact ⟨trivial, rfl⟩

/-- Witness for C2: the engine consumes the single input byte, produces
nothing, and stops with the buffer-exhaustion status while `input_eof` is
asserted; the call reports the data error. -/
theorem inflate_truncation_promotion_witness :
    ((true = true →
      (btidy_deflate64_inflate
          (some ⟨none, some 65536, [], 0, 0, [], 0, 0, false, true⟩)
          ⟨false, false, false, false, false⟩ [1] 1 true [0] 1
          ⟨[EngineEvent.pull], Z_BUF_ERROR, 0⟩).1 = Z_DATA_ERROR) ∧
    (true = false →
      (btidy_deflate64_inflate
          (some ⟨none, some 65536, [], 0, 0, [], 0, 0, false, true⟩)
          ⟨false, false, false, false, false⟩ [1] 1 true [0] 1
          ⟨[EngineEvent.pull], Z_BUF_ERROR, 0⟩).1 = Z_OK ∧
      (btidy_deflate64_inflate
          (some ⟨none, some 65536, [], 0, 0, [], 0, 0, false, true⟩)
          ⟨false, false, false, false, false⟩ [1] 1 true [0] 1
          ⟨[EngineEvent.pull], Z_BUF_ERROR, 0⟩).2.map
          (fun p => p.2.needs_input) = some true)) :=
  inflate_truncation_promotion
    ⟨none, some 65536, [], 0, 0, [], 0, 0, false, true⟩
    ⟨false, false, false, false, false⟩ [1] 1 true [0] 1
    ⟨[EngineEvent.pull], Z_BUF_ERROR, 0⟩
    rfl rfl rfl rfl rfl rfl rfl (by decide) rfl (by decide)

/-- Claim C3: for every call of `btidy_deflate64_inflate` that reaches the
engine run, whichever outcome fired, the reported `input_used` equals
`input_len` minus the engine's unconsumed remainder and `output_used`
equals the final value of the output cursor. -/
theorem inflate_used_counts (st : btidy_deflate64_state) (outp : OutParams)
    (input : List Nat) (input_len : Nat) (input_eof : Bool)
    (output : List Nat) (output_len : Nat) (er : EngineRun)
    (h1 : outp.input_used_null = false) (h2 : outp.output_used_null = false)
    (h3 : outp.needs_input_null = false) (h4 : outp.needs_output_null = false)
    (h5 : outp.finished_null = false) (hinit : st.initialized = true)
    (havail : er.avail_in_final ≤ input_len) (hIm : input_len < SIZE_MOD) :
    ∀ code s2 r,
      btidy_deflate64_inflate (some st) outp input input_len input_eof output
          output_len er = (code, some (s2, r)) →
      r.input_used = input_len - er.avail_in_final ∧
      r.output_used = (runEvents (bindCall st input input_len output
          output_len) er.events).output_offset := by
  intro code s2 r h
  obtain ⟨hs2, hiu, hou⟩ := inflate_core_init st outp input input_len
    input_eof output output_len er h1 h2 h3 h4 h5 hinit code s2 r h
  constructor
  · rw [hiu, sizeSub_eq_sub _ _ havail hIm]
  · rw [hou, hs2]

/-- Witness for C3: a finished run that consumed two of three input bytes
and produced two output bytes. -/
theorem inflate_used_counts_witness :
    (⟨2, 2, false, false, true⟩ : InflateOut).input_used = 3 - 1 ∧
    (⟨2, 2, false, false, true⟩ : InflateOut).output_used
      = (runEvents (bindCall ⟨none, some 65536, [], 0, 0, [], 0, 0, false,
          true⟩ [1, 2, 3] 3 [0, 0, 0, 0] 4)
          [EngineEvent.push [9, 8]]).output_offset :=
  inflate_used_counts ⟨none, some 65536, [], 0, 0, [], 0, 0, false, true⟩
    ⟨false, false, false, false, false⟩ [1, 2, 3] 3 false [0, 0, 0, 0] 4
    ⟨[EngineEvent.push [9, 8]], Z_STREAM_END, 1⟩
    rfl rfl rfl rfl rfl rfl (by decide) (by decide)
    Z_OK ⟨none, some 65536, [1, 2, 3], 3, 0, [9, 8, 0, 0], 4, 2, false, true⟩
    ⟨2, 2, false, false, true⟩ (by decide)

/-- Claim C6: the returned `output_used` never exceeds `output_len`, the
returned `input_used` never exceeds `input_len`, and the output cursor is
at or below the output length after every prefix of the engine's hook
invocations during the call. -/
theorem inflate_no_overrun (st : btidy_deflate64_state) (outp : OutParams)
    (input : List Nat) (input_len : Nat) (input_eof : Bool)
    (output : List Nat) (output_len : Nat) (er : EngineRun)
    (h1 : outp.input_used_null = false) (h2 : outp.output_used_null = false)
    (h3 : outp.needs_input_null = false) (h4 : outp.needs_output_null = false)
    (h5 : outp.finished_null = false)
    (hIm : input_len < SIZE_MOD) (hOm : output_len < SIZE_MOD)
    (havail : er.avail_in_final ≤ input_len) :
    (∀ pre suf, er.events = pre ++ suf →
      (runEvents (bindCall st input input_len output output_len)
          pre).output_offset ≤ output_len) ∧
    (∀ code s2 r,
      btidy_deflate64_inflate (some st) outp input input_len input_eof output
          output_len er = (code, some (s2, r)) →
      r.input_used ≤ input_len ∧ r.output_used ≤ output_len) := by
  have hs1o : (bindCall st input input_len output output_len).output_offset
      ≤ (bindCall st input input_len output output_len).output_len := by
    rw [bindCall_output_offset_eq]
    exact Nat.zero_le _
  have hs1m : (bindCall st input input_len output output_len).output_len
      < SIZE_MOD := by
    rw [bindCall_output_len_eq]
    exact hOm
  constructor
  · intro pre suf hps
    obtain ⟨ha, hb⟩ :=
      runEvents_output_inv pre (bindCall st input input_len output output_len)
        hs1o hs1m
    rw [bindCall_output_len_eq] at hb
    omega
  · intro code s2 r h
    by_cases hinit : st.initialized = true
    · obtain ⟨hs2, hiu, hou⟩ := inflate_core_init st outp input input_len
        input_eof output output_len er h1 h2 h3 h4 h5 hinit code s2 r h
      constructor
      · rw [hiu, sizeSub_eq_sub _ _ havail hIm]
        omega
      · obtain ⟨ha, hb⟩ := runEvents_output_inv er.events
          (bindCall st input input_len output output_len) hs1o hs1m
        rw [bindCall_output_len_eq] at hb
        rw [hou, hs2]
        omega
    · rw [Bool.not_eq_true] at hinit
      rw [inflate_core_uninit st outp input input_len input_eof output
        output_len er h1 h2 h3 h4 h5 hinit] at h
      simp only [Prod.mk.injEq, Option.some.injEq] at h
      obtain ⟨hcode, hs2, hr⟩ := h
      subst hr
      constructor
      · show sizeSub input_len
            (if input_len > UINT_MAX then UINT_MAX else input_len)
          ≤ input_len
        have hle : (if input_len > UINT_MAX then UINT_MAX else input_len)
            ≤ input_len := by
          split <;> omega
        rw [sizeSub_eq_sub _ _ hle hIm]
        omega
      · exact Nat.zero_le _

/-- Witness for C6 at the concrete finished run used for C3. -/
theorem inflate_no_overrun_witness :
    ((∀ pre suf, [EngineEvent.push [9, 8]] = pre ++ suf →
      (runEvents (bindCall ⟨none, some 65536, [], 0, 0, [], 0, 0, false, true⟩
          [1, 9, 7] 3 [0, 0, 0, 0] 4) pre).output_offset ≤ 4) ∧
    (∀ code s2 r,
      btidy_deflate64_inflate
          (some ⟨none, some 65536, [], 0, 0, [], 0, 0, false, true⟩)
          ⟨false, false, false, false, false⟩ [1, 9, 7] 3 false [0, 0, 0, 0] 4
          ⟨[EngineEvent.push [9, 8]], Z_STREAM_END, 1⟩ = (code, some (s2, r)) →
      r.input_used ≤ 3 ∧ r.output_used ≤ 4)) :=
  inflate_no_overrun ⟨none, some 65536, [], 0, 0, [], 0, 0, false, true⟩
    ⟨false, false, false, false, false⟩ [1, 9, 7] 3 false [0, 0, 0, 0] 4
    ⟨[EngineEvent.push [9, 8]], Z_STREAM_END, 1⟩
    rfl rfl rfl rfl rfl (by decide) (by decide) (by decide)

/-- Claim C7: `btidy_deflate64_inflate` returns `Z_STREAM_ERROR` whenever the
handle is NULL, whenever any required result out-parameter is NULL, or
whenever the handle was never successfully initialized (the external engine
rejects the unbound context with the invalid-state status, as modelled in
`runEngine`). -/
theorem inflate_invalid_state (state? : Option btidy_deflate64_state)
    (outp : OutParams) (input : List Nat) (input_len : Nat) (input_eof : Bool)
    (output : List Nat) (output_len : Nat) (er : EngineRun)
    (hbad : state? = none
      ∨ (outp.input_used_null || outp.output_used_null
          || outp.needs_input_null || outp.needs_output_null
          || outp.finished_null) = true
      ∨ (∃ st, state? = some st ∧ st.initialized = false)) :
    (btidy_deflate64_inflate state? outp input input_len input_eof output
        output_len er).1 = Z_STREAM_ERROR := by
  cases state? with
  | none => simp [btidy_deflate64_inflate]
  | some st =>
    rcases hbad with hb | hb | hb
    · exact absurd hb (by simp)
    · simp [btidy_deflate64_inflate, hb]
    · obtain ⟨st', heq, hninit⟩ := hb
      injection heq with hst
      subst hst
      by_cases hnull : (outp.input_used_null || outp.output_used_null
          || outp.needs_input_null || outp.needs_output_null
          || outp.finished_null) = true
      · simp [btidy_deflate64_inflate, hnull]
      · simp only [Bool.or_eq_true, not_or, Bool.not_eq_true] at hnull
        obtain ⟨⟨⟨⟨h1, h2⟩, h3⟩, h4⟩, h5⟩ := hnull
        rw [inflate_core_uninit st outp input input_len input_eof output
          output_len er h1 h2 h3 h4 h5 hninit]

/-- Witness for C7: a never-initialized fresh handle with valid
out-parameters yields the invalid-state status. -/
theorem inflate_invalid_state_witness :
    (btidy_deflate64_inflate (some btidy_deflate64_new)
        ⟨false, false, false, false, false⟩ [1] 1 false [0] 1
        ⟨[], Z_OK, 0⟩).1 = Z_STREAM_ERROR :=
  inflate_invalid_state (some btidy_deflate64_new)
    ⟨false, false, false, false, false⟩ [1] 1 false [0] 1 ⟨[], Z_OK, 0⟩
    (Or.inr (Or.inr ⟨btidy_deflate64_new, rfl, rfl⟩))

/-- Claim C10: when `btidy_deflate64_inflate` returns an error, the
needs-output and finished flags are clear; the needs-input flag is set on
an error return exactly in the promoted-truncation case (engine stopped
with `Z_BUF_ERROR`, no overflow, all input consumed, `input_eof`
asserted), in which case the error is `Z_DATA_ERROR`. -/
theorem inflate_error_flags (st : btidy_deflate64_state) (outp : OutParams)
    (input : List Nat) (input_len : Nat) (input_eof : Bool)
    (output : List Nat) (output_len : Nat) (er : EngineRun)
    (h1 : outp.input_used_null = false) (h2 : outp.output_used_null = false)
    (h3 : outp.needs_input_null = false) (h4 : outp.needs_output_null = false)
    (h5 : outp.finished_null = false) :
    ∀ code s2 r,
      btidy_deflate64_inflate (some st) outp input input_len input_eof output
          output_len er = (code, some (s2, r)) →
      code ≠ Z_OK →
      (r.needs_output = false ∧ r.finished = false ∧
        (r.needs_input = true → code = Z_DATA_ERROR) ∧
        (r.needs_input = true ↔
          (st.initialized = true ∧ er.ret = Z_BUF_ERROR ∧
            (runEvents (bindCall st input input_len output output_len)
              er.events).output_overflow = false ∧
            sizeSub input_len er.avail_in_final = input_len ∧
            input_eof = true))) := by
  intro code s2 r h hne
  by_cases hI : st.initialized = true
  · have hbi : (bindCall st input input_len output output_len).initialized
        = true := hI
    simp only [btidy_deflate64_inflate, h1, h2, h3, h4, h5, Bool.or_self,
      Bool.false_eq_true, if_false, runEngine, hbi, if_true] at h
    split at h
    · simp only [Prod.mk.injEq, Option.some.injEq] at h
      obtain ⟨hcode, hs2, hr⟩ := h
      exact absurd hcode.symm hne
    · rename_i hcEnd
      split at h
      · rename_i hcBuf
        split at h
        · simp only [Prod.mk.injEq, Option.some.injEq] at h
          obtain ⟨hcode, hs2, hr⟩ := h
          exact absurd hcode.symm hne
        · rename_i hovf
          split at h
          · rename_i hcons
            split at h
            · rename_i heof
              simp only [Prod.mk.injEq, Option.some.injEq] at h
              obtain ⟨hcode, hs2, hr⟩ := h
              subst hr
              subst hs2
              refine ⟨rfl, rfl, fun _ => hcode.symm, ?_⟩
              constructor
              · intro _
                exact ⟨hI, hcBuf, by simpa using hovf, hcons, heof⟩
              · intro _
                rfl
            · simp only [Prod.mk.injEq, Option.some.injEq] at h
              obtain ⟨hcode, hs2, hr⟩ := h
              exact absurd hcode.symm hne
          · rename_i hcons
            simp only [Prod.mk.injEq, Option.some.injEq] at h
            obtain ⟨hcode, hs2, hr⟩ := h
            subst hr
            subst hs2
            refine ⟨rfl, rfl, fun hf => absurd hf (by simp), ?_⟩
            constructor
            · intro hf
              exact absurd hf (by simp)
            · rintro ⟨-, -, -, hc, -⟩
              exact absurd hc hcons
      · rename_i hcBuf
        simp only [Prod.mk.injEq, Option.some.injEq] at h
        obtain ⟨hcode, hs2, hr⟩ := h
        subst hr
        subst hs2
        refine ⟨rfl, rfl, fun hf => absurd hf (by simp), ?_⟩
        constructor
        · intro hf
          exact absurd hf (by simp)
        · rintro ⟨-, hc, -, -, -⟩
          exact absurd hc hcBuf
  · rw [Bool.not_eq_true] at hI
    rw [inflate_core_uninit st outp input input_len input_eof output
      output_len er h1 h2 h3 h4 h5 hI] at h
    simp only [Prod.mk.injEq, Option.some.injEq] at h
    obtain ⟨hcode, hs2, hr⟩ := h
    subst hr
    refine ⟨rfl, rfl, fun hf => absurd hf (by simp), ?_⟩
    constructor
    · intro hf
      exact absurd hf (by simp)
    · rintro ⟨hc, -, -, -, -⟩
      rw [hI] at hc
      exact absurd hc (by simp)

/-- Witness for C10 at the promoted-truncation error: the engine consumes
the single input byte, no overflow, `input_eof` asserted; the data-error
return carries `needs_input = true`. -/
theorem inflate_error_flags_witness :
    ((⟨1, 0, true, false, false⟩ : InflateOut).needs_output = false ∧
    (⟨1, 0, true, false, false⟩ : InflateOut).finished = false ∧
    ((⟨1, 0, true, false, false⟩ : InflateOut).needs_input = true →
      Z_DATA_ERROR = Z_DATA_ERROR) ∧
    ((⟨1, 0, true, false, false⟩ : InflateOut).needs_input = true ↔
      ((⟨none, some 65536, [], 0, 0, [], 0, 0, false, true⟩ :
          btidy_deflate64_state).initialized = true ∧
        (⟨[EngineEvent.pull], Z_BUF_ERROR, 0⟩ : EngineRun).ret
          = Z_BUF_ERROR ∧
        (runEvents (bindCall
            ⟨none, some 65536, [], 0, 0, [], 0, 0, false, true⟩
            [1] 1 [0] 1)
          (⟨[EngineEvent.pull], Z_BUF_ERROR, 0⟩ : EngineRun).events
          ).output_overflow = false ∧
        sizeSub 1 (⟨[EngineEvent.pull], Z_BUF_ERROR, 0⟩ :
          EngineRun).avail_in_final = 1 ∧
        true = true))) :=
  inflate_error_flags ⟨none, some 65536, [], 0, 0, [], 0, 0, false, true⟩
    ⟨false, false, false, false, false⟩ [1] 1 true [0] 1
    ⟨[EngineEvent.pull], Z_BUF_ERROR, 0⟩
    rfl rfl rfl rfl rfl
    Z_DATA_ERROR ⟨none, some 65536, [1], 1, 1, [0], 1, 0, false, true⟩
    ⟨1, 0, true, false, false⟩ (by decide) (by decide)

/-- Claim C8: `btidy_deflate64_init` on a fresh (un-initialized) handle
either succeeds, marking the handle initialized with the 65536-byte window
allocated, or fails leaving it un-initialized with no window (the window
is freed on engine-bind failure); window allocation failure yields
`Z_MEM_ERROR`; and afterwards the window is allocated if and only if
`initialized` is true. -/
theorem init_window_iff (st : btidy_deflate64_state) (windowAllocOk : Bool)
    (engineBindRet : Int) (hninit : st.initialized = false) :
    ∀ code st',
      btidy_deflate64_init (some st) windowAllocOk engineBindRet
        = (code, some st') →
      ((code = Z_OK → st'.initialized = true ∧ st'.window = some 65536) ∧
       (code ≠ Z_OK → st'.initialized = false ∧ st'.window = none) ∧
       (windowAllocOk = false → code = Z_MEM_ERROR) ∧
       (st'.window.isSome = st'.initialized)) := by
  intro code st' h
  simp only [btidy_deflate64_init] at h
  by_cases hw : windowAllocOk = false
  · rw [if_pos hw] at h
    simp only [Prod.mk.injEq, Option.some.injEq] at h
    obtain ⟨hcode, hst⟩ := h
    subst hst
    refine ⟨?_, fun _ => ⟨hninit, rfl⟩, fun _ => hcode.symm, ?_⟩
    · intro hc
      rw [← hcode] at hc
      exact absurd hc (by simp [Z_MEM_ERROR, Z_OK])
    · simp [hninit]
  · rw [if_neg hw] at h
    by_cases hb : engineBindRet ≠ Z_OK
    · rw [if_pos hb] at h
      simp only [Prod.mk.injEq, Option.some.injEq] at h
      obtain ⟨hcode, hst⟩ := h
      subst hst
      refine ⟨?_, fun _ => ⟨hninit, rfl⟩, fun hwf => absurd hwf hw, ?_⟩
      · intro hc
        exact absurd (hcode.trans hc) hb
      · simp [hninit]
    · rw [if_neg hb] at h
      simp only [Prod.mk.injEq, Option.some.injEq] at h
      obtain ⟨hcode, hst⟩ := h
      subst hst
      refine ⟨fun _ => ⟨rfl, rfl⟩, ?_, fun hwf => absurd hwf hw, rfl⟩
      intro hc
      exact absurd hcode.symm hc

/-- Witness for C8: successful window allocation and engine bind on a fresh
handle. -/
theorem init_window_iff_witness :
    ((Z_OK = Z_OK →
      ({ btidy_deflate64_new with window := some 65536, initialized := true }
          : btidy_deflate64_state).initialized = true ∧
      ({ btidy_deflate64_new with window := some 65536, initialized := true }
          : btidy_deflate64_state).window = some 65536) ∧
    (Z_OK ≠ Z_OK →
      ({ btidy_deflate64_new with window := some 65536, initialized := true }
          : btidy_deflate64_state).initialized = false ∧
      ({ btidy_deflate64_new with window := some 65536, initialized := true }
          : btidy_deflate64_state).window = none) ∧
    (true = false → Z_OK = Z_MEM_ERROR) ∧
    (({ btidy_deflate64_new with window := some 65536, initialized := true }
        : btidy_deflate64_state).window.isSome
      = ({ btidy_deflate64_new with window := some 65536, initialized := true }
        : btidy_deflate64_state).initialized)) :=
  init_window_iff btidy_deflate64_new true Z_OK rfl Z_OK
    { btidy_deflate64_new with window := some 65536, initialized := true }
    (by decide)

/-- Claim C9: `btidy_deflate64_error_message` always returns a non-empty
string (given that an engine-carried diagnostic is never the empty string):
the engine diagnostic when the handle is non-null and carries one,
otherwise the fixed string for the status category, with the generic
unknown-error message for any other code. -/
theorem error_message_total (state? : Option btidy_deflate64_state)
    (code : Int)
    (hmsg : ∀ st m, state? = some st → st.msg = some m → m ≠ "") :
    btidy_deflate64_error_message state? code ≠ "" ∧
    (∀ st m, state? = some st → st.msg = some m →
      btidy_deflate64_error_message state? code = m) ∧
    (state?.bind (fun st => st.msg) = none →
      ((code = Z_DATA_ERROR →
          btidy_deflate64_error_message state? code
            = "invalid deflate64 stream") ∧
       (code = Z_MEM_ERROR →
          btidy_deflate64_error_message state? code
            = "insufficient memory") ∧
       (code = Z_STREAM_ERROR →
          btidy_deflate64_error_message state? code
            = "invalid stream state") ∧
       (code = Z_BUF_ERROR →
          btidy_deflate64_error_message state? code
            = "insufficient input or output buffer") ∧
       (code ≠ Z_DATA_ERROR → code ≠ Z_MEM_ERROR → code ≠ Z_STREAM_ERROR →
          code ≠ Z_BUF_ERROR →
          btidy_deflate64_error_message state? code
            = "unknown deflate64 error"))) := by
  rcases hsm : state?.bind (fun st => st.msg) with _ | m
  · have hnone : ∀ st m, state? = some st → st.msg = some m → False := by
      intro st m hst hm
      rw [hst] at hsm
      simp [hm] at hsm
    refine ⟨?_, fun st m hst hm => (hnone st m hst hm).elim, fun _ => ?_⟩
    · simp only [btidy_deflate64_error_message, hsm]
      split_ifs <;> decide
    · refine ⟨?_, ?_, ?_, ?_, ?_⟩ <;> intro hc
      · simp [btidy_deflate64_error_message, hsm, hc, Z_DATA_ERROR]
      · simp [btidy_deflate64_error_message, hsm, hc, Z_DATA_ERROR, Z_MEM_ERROR]
      · simp [btidy_deflate64_error_message, hsm, hc, Z_DATA_ERROR,
          Z_MEM_ERROR, Z_STREAM_ERROR]
      · simp [btidy_deflate64_error_message, hsm, hc, Z_DATA_ERROR,
          Z_MEM_ERROR, Z_STREAM_ERROR, Z_BUF_ERROR]
      · intro hc2 hc3 hc4
        simp [btidy_deflate64_error_message, hsm, hc, hc2, hc3, hc4]
  · obtain ⟨st0, hst0, hm0⟩ : ∃ st0, state? = some st0 ∧ st0.msg = some m := by
      cases state? with
      | none => cases hsm
      | some st1 =>
          refine ⟨st1, rfl, ?_⟩
          simpa using hsm
    have hres : btidy_deflate64_error_message state? code = m := by
      simp only [btidy_deflate64_error_message, hsm]
    refine ⟨by rw [hres]; exact hmsg st0 m hst0 hm0, ?_, ?_⟩
    · intro st' m' hst' hm'
      rw [hres]
      rw [hst'] at hst0
      injection hst0 with he
      rw [he] at hm'
      rw [hm0] at hm'
      exact Option.some.inj hm'
    · intro hcontra
      exact Option.noConfusion hcontra

/-- Witness for C9: a handle carrying the engine diagnostic text. -/
theorem error_message_total_witness :
    btidy_deflate64_error_message
        (some { btidy_deflate64_new with msg := some "stream error" }) Z_OK
      ≠ "" ∧
    (∀ st m,
      (some { btidy_deflate64_new with msg := some "stream error" }
          : Option btidy_deflate64_state) = some st →
      st.msg = some m →
      btidy_deflate64_error_message
        (some { btidy_deflate64_new with msg := some "stream error" }) Z_OK
        = m) ∧
    ((some { btidy_deflate64_new with msg := some "stream error" }
        : Option btidy_deflate64_state).bind (fun st => st.msg) = none →
      ((Z_OK = Z_DATA_ERROR →
          btidy_deflate64_error_message
            (some { btidy_deflate64_new with msg := some "stream error" })
            Z_OK = "invalid deflate64 stream") ∧
       (Z_OK = Z_MEM_ERROR →
          btidy_deflate64_error_message
            (some { btidy_deflate64_new with msg := some "stream error" })
            Z_OK = "insufficient memory") ∧
       (Z_OK = Z_STREAM_ERROR →
          btidy_deflate64_error_message
            (some { btidy_deflate64_new with msg := some "stream error" })
            Z_OK = "invalid stream state") ∧
       (Z_OK = Z_BUF_ERROR →
          btidy_deflate64_error_message
            (some { btidy_deflate64_new with msg := some "stream error" })
            Z_OK = "insufficient input or output buffer") ∧
       (Z_OK ≠ Z_DATA_ERROR → Z_OK ≠ Z_MEM_ERROR → Z_OK ≠ Z_STREAM_ERROR →
          Z_OK ≠ Z_BUF_ERROR →
          btidy_deflate64_error_message
            (some { btidy_deflate64_new with msg := some "stream error" })
            Z_OK = "unknown deflate64 error"))) :=
  error_message_total
    (some { btidy_deflate64_new with msg := some "stream error" }) Z_OK
    (by
      intro st m h1 h2
      injection h1 with h1
      rw [← h1] at h2
      injection h2 with h2
      rw [← h2]
      decide)
